import Mathlib

/-!
Shallow embedding of `src/fake_rtc.c` (a fake RTC Linux driver) together
with proofs checking the natural-language specification against it.

Modelling conventions:
* `ktime_t` (signed 64-bit nanosecond timestamps) is modelled as `Int`;
  every C arithmetic expression whose intermediate values are 64-bit is
  wrapped in `wrap64`, which reduces an exact integer result to the
  two's-complement value the machine computes (C computes the mixed
  signed/unsigned sums modulo 2^64 and reinterprets the result as s64).
* `unsigned long` / `uint64_t` values are modelled as `Nat` reduced
  modulo `U64_SIZE` where the C code can wrap.
* `int8_t` values (the random byte, the `/proc` open guard) are `Int`.
* The ambient clocks `ktime_get` / `ktime_get_real` and the random byte
  produced by `get_random_bytes` are inputs of the modelled operations.
* The C `static` local call counters of `get_slowed_time` and
  `get_randomized_time` (plain `int`, used only through `% 2`) are kept
  as `Nat` fields of the state; they start at zero like C statics.
-/

namespace FakeRTC

/-- 2^64, the modulus of C `unsigned long` / `uint64_t` arithmetic. -/
def U64_SIZE : Nat := 18446744073709551616

/-- Reduce an exact integer to the s64 value obtained by computing it
modulo 2^64 and reinterpreting the 64-bit pattern as signed. -/
def wrap64 (x : Int) : Int :=
  (x + 9223372036854775808) % 18446744073709551616 - 9223372036854775808

/-- C macro `ACCELERATING_COEFFICIENT`. -/
def ACCELERATING_COEFFICIENT : Nat := 2

/-- C macro `SLOWING_COEFFICIENT`. -/
def SLOWING_COEFFICIENT : Nat := 5

/-- C macro `NANOSECONDS_IN_SECOND`. -/
def NANOSECONDS_IN_SECOND : Int := 1000000000

/-- C macro `PROC_MSG_LEN`. -/
def PROC_MSG_LEN : Nat := 1024

/-- Linux `KTIME_MAX` (s64 maximum). -/
def KTIME_MAX : Int := 9223372036854775807

/-- Linux `KTIME_SEC_MAX = KTIME_MAX / NSEC_PER_SEC`. -/
def KTIME_SEC_MAX : Int := KTIME_MAX / NANOSECONDS_IN_SECOND

/-- The operating-mode enum of the module (C `enum { REAL, RANDOM,
ACCELERATED, SLOWED }`). -/
inductive Mode where
  | REAL
  | RANDOM
  | ACCELERATED
  | SLOWED
deriving DecidableEq

/-- The numeric value of a mode, i.e. the value of the C enum constant
(the value `sprintf`'s `%d` prints and `fake_rtc_proc_write` stores). -/
def mode_number : Mode → Nat
  | Mode.REAL => 0
  | Mode.RANDOM => 1
  | Mode.ACCELERATED => 2
  | Mode.SLOWED => 3

/-- Inverse direction: the mode denoted by an enum value.  Used by
`fake_rtc_proc_write`, whose guard ensures the argument is in `0..3`
(the catch-all branch is therefore only ever reached with `3`). -/
def mode_of_nat : Nat → Mode
  | 0 => Mode.REAL
  | 1 => Mode.RANDOM
  | 2 => Mode.ACCELERATED
  | _ => Mode.SLOWED

/-- The whole mutable state of the module: the fields of
`struct fake_rtc_info` that carry logic (the external device/proc
registration handles are omitted), the `mode` global, the two C
`static` local call counters, and the `/proc` message buffer together
with the global cursor `proc_msg_ptr` (kept as the offset from the
start of `proc_msg`). -/
structure FakeRtc where
  mode : Mode
  synchronized_real_time : Int
  synchronized_boot_time : Int
  device_proc_open : Int
  read_counter : Nat
  set_counter : Nat
  slowed_call_counter : Nat
  random_call_counter : Nat
  proc_msg : List Char
  proc_msg_ptr : Int
deriving DecidableEq

/-- C `synchronize_boot_time`: stores the current monotonic clock
(`ktime_get()`, here the parameter `now`). -/
def synchronize_boot_time (s : FakeRtc) (now : Int) : FakeRtc :=
  { s with synchronized_boot_time := now }

/-- C `synchronize_real_time`: stores the current wall clock
(`ktime_get_real()`, here the parameter `real_now`). -/
def synchronize_real_time (s : FakeRtc) (real_now : Int) : FakeRtc :=
  { s with synchronized_real_time := real_now }

/-- C `get_accelerated_time`. -/
def get_accelerated_time (s : FakeRtc) (nanoseconds_difference : Nat) : Int :=
  wrap64 (s.synchronized_real_time +
    (nanoseconds_difference : Int) * (ACCELERATING_COEFFICIENT : Int))

/-- C `get_slowed_time`: increments its static call counter, then
returns the reference time plus the slowed elapsed time plus one extra
second on every odd call (`(call_counter % 2) * NANOSECONDS_IN_SECOND`).
The division is the C unsigned (floor) division. -/
def get_slowed_time (s : FakeRtc) (nanoseconds_difference : Nat) : Int × FakeRtc :=
  let c := s.slowed_call_counter + 1
  (wrap64 (s.synchronized_real_time +
      ((nanoseconds_difference / SLOWING_COEFFICIENT : Nat) : Int) +
      ((c % 2 : Nat) : Int) * NANOSECONDS_IN_SECOND),
   { s with slowed_call_counter := c })

/-- C `get_randomized_time`: increments its static call counter, draws
one random byte (here the parameter `random_byte`, an `int8_t`), takes
`random_byte % 10` with C truncated (sign-of-dividend) remainder, and
returns the reference time plus `elapsed * coefficient` plus one extra
second on every odd call. -/
def get_randomized_time (s : FakeRtc) (random_byte : Int)
    (nanoseconds_difference : Nat) : Int × FakeRtc :=
  let c := s.random_call_counter + 1
  let coefficient := Int.tmod random_byte 10
  (wrap64 (s.synchronized_real_time +
      (nanoseconds_difference : Int) * coefficient +
      ((c % 2 : Nat) : Int) * NANOSECONDS_IN_SECOND),
   { s with random_call_counter := c })

/-- C `get_real_time`. -/
def get_real_time (s : FakeRtc) (nanoseconds_difference : Nat) : Int :=
  wrap64 (s.synchronized_real_time + (nanoseconds_difference : Int))

/-- The `unsigned long nanosec_from_sync = ktime_get() -
fake_rtc.synchronized_boot_time;` computation of `fake_rtc_read_time`:
an s64 difference converted to `unsigned long` (reduced modulo 2^64). -/
def nanosec_from_sync (s : FakeRtc) (now : Int) : Nat :=
  ((now - s.synchronized_boot_time) % (U64_SIZE : Int)).toNat

/-- What `fake_rtc_read_time` hands back: the ns-resolution apparent
timestamp `my_time`, the whole-second value `my_time /
NANOSECONDS_IN_SECOND` passed to `rtc_time64_to_tm` (C s64 division,
i.e. truncation toward zero), and the C return status. -/
structure ReadTimeResult where
  my_time : Int
  tm_seconds : Int
  ret : Int
deriving DecidableEq

/-- C `fake_rtc_read_time`: computes the elapsed nanoseconds since the
last synchronization, dispatches through `fake_rtc_accessors[mode]`,
converts the resulting ns timestamp to whole seconds for
`rtc_time64_to_tm`, increments `read_counter`, and returns 0. -/
def fake_rtc_read_time (s : FakeRtc) (now : Int) (random_byte : Int) :
    ReadTimeResult × FakeRtc :=
  let nd := nanosec_from_sync s now
  match s.mode with
  | Mode.REAL =>
      let t := get_real_time s nd
      ({ my_time := t, tm_seconds := t.tdiv NANOSECONDS_IN_SECOND, ret := 0 },
       { s with read_counter := (s.read_counter + 1) % U64_SIZE })
  | Mode.RANDOM =>
      let p := get_randomized_time s random_byte nd
      ({ my_time := p.1, tm_seconds := p.1.tdiv NANOSECONDS_IN_SECOND, ret := 0 },
       { p.2 with read_counter := (p.2.read_counter + 1) % U64_SIZE })
  | Mode.ACCELERATED =>
      let t := get_accelerated_time s nd
      ({ my_time := t, tm_seconds := t.tdiv NANOSECONDS_IN_SECOND, ret := 0 },
       { s with read_counter := (s.read_counter + 1) % U64_SIZE })
  | Mode.SLOWED =>
      let p := get_slowed_time s nd
      ({ my_time := p.1, tm_seconds := p.1.tdiv NANOSECONDS_IN_SECOND, ret := 0 },
       { p.2 with read_counter := (p.2.read_counter + 1) % U64_SIZE })

/-- Linux `ktime_set(secs, 0)` as used by `rtc_tm_to_ktime`: saturates
to `KTIME_MAX` when the seconds value is too large, otherwise multiplies
by `NSEC_PER_SEC` in s64 arithmetic. -/
def ktime_set_sec (secs : Int) : Int :=
  if KTIME_SEC_MAX ≤ secs then KTIME_MAX
  else wrap64 (secs * NANOSECONDS_IN_SECOND)

/-- C `fake_rtc_set_time`: stores `rtc_tm_to_ktime(*tm)` (here modelled
through the tm's time64 seconds value `tm_time64`, since
`rtc_tm_to_ktime` is `ktime_set(rtc_tm_to_time64(tm), 0)`), then calls
`synchronize_boot_time` with the current monotonic clock `now`,
increments `set_counter`, and returns 0. -/
def fake_rtc_set_time (s : FakeRtc) (tm_time64 : Int) (now : Int) :
    Int × FakeRtc :=
  let s1 := { s with synchronized_real_time := ktime_set_sec tm_time64 }
  let s2 := synchronize_boot_time s1 now
  (0, { s2 with set_counter := (s2.set_counter + 1) % U64_SIZE })

/-- The status message `fake_rtc_proc_open` formats with `sprintf`.
`%llu` renders the two `uint64_t` counters and `%d` the enum value of
the current mode; both render in decimal exactly as `Nat.repr`. -/
def procMsg (set_counter read_counter : Nat) (m : Mode) : List Char :=
  ("Time has been set " ++ Nat.repr set_counter ++ " times and read " ++
   Nat.repr read_counter ++ " times\nOperating modes of this device:\n" ++
   "\t0 - Real time\n\t1 - Random time\n\t2 - Accelerated time\n" ++
   "\t3 - Slowed time\nCurrent operating mode: " ++
   Nat.repr (mode_number m) ++
   "\nWrite mode number to this file to change operating mode\n").data

/-- C `fake_rtc_proc_open`: fails with `-EBUSY` (= -16) when the device
is already open, leaving the state untouched; otherwise increments the
open guard, formats the status snapshot into `proc_msg`, and resets the
message cursor to the start of the buffer.  (`try_module_get` is
host-environment plumbing with no modelled state.) -/
def fake_rtc_proc_open (s : FakeRtc) : Int × FakeRtc :=
  if s.device_proc_open ≠ 0 then (-16, s)
  else
    (0, { s with device_proc_open := s.device_proc_open + 1,
                 proc_msg := procMsg s.set_counter s.read_counter s.mode,
                 proc_msg_ptr := 0 })

/-- C `fake_rtc_proc_release`: decrements the open guard.
(`module_put` is host-environment plumbing.) -/
def fake_rtc_proc_release (s : FakeRtc) : Int × FakeRtc :=
  (0, { s with device_proc_open := s.device_proc_open - 1 })

/-- The copy loop of `fake_rtc_proc_read`: starting at offset `p` in
the message buffer, copies characters to the user while the current
character is not the NUL terminator and the caller-supplied length is
not exhausted.  Positions at or past the end of the stored string read
as NUL: the 1024-byte array is zero-initialised and `sprintf` writes a
terminator after the message. -/
def proc_read_loop (msg : List Char) : Nat → Nat → List Char
  | _, 0 => []
  | p, len + 1 =>
    if h : p < msg.length then
      if msg.get ⟨p, h⟩ = Char.ofNat 0 then []
      else msg.get ⟨p, h⟩ :: proc_read_loop msg (p + 1) len
    else []

/-- C `fake_rtc_proc_read`: advances the global cursor by the passed
offset, returns 0 bytes when the cursor is more than `PROC_MSG_LEN`
past the start of the buffer, and otherwise streams characters until
the NUL terminator or until `length` bytes were copied, advancing the
global cursor past the copied characters and returning their count. -/
def fake_rtc_proc_read (s : FakeRtc) (length : Nat) (off : Int) :
    List Char × Int × FakeRtc :=
  let p : Int := s.proc_msg_ptr + off
  if p > (PROC_MSG_LEN : Int) then ([], 0, { s with proc_msg_ptr := p })
  else
    let bytes := proc_read_loop s.proc_msg p.toNat length
    (bytes, (bytes.length : Int), { s with proc_msg_ptr := p + bytes.length })

/-- C `fake_rtc_proc_write`: an empty write or a positive offset is a
no-op that still reports `len` bytes consumed; otherwise the first
input character is examined and, unless it is an ASCII digit in
`0..3`, the call is again a state-preserving no-op reporting `len`
consumed; a digit `d` stores `d - 48` into the mode enum. -/
def fake_rtc_proc_write (s : FakeRtc) (first : Char) (len : Nat) (off : Int) :
    Nat × FakeRtc :=
  if len = 0 ∨ 0 < off then (len, s)
  else if first < '0' ∨ '3' < first then (len, s)
  else (len, { s with mode := mode_of_nat (first.toNat - 48) })

/-- C `fake_rtc_init` (the state-relevant part): the open guard and
both usage counters start at zero, the mode global initialiser is
`REAL`, the C `static` call counters start at zero, the message buffer
is zero-initialised, and both synchronization points are captured from
the ambient clocks. -/
def fake_rtc_init (real_now mono_now : Int) : FakeRtc :=
  synchronize_real_time
    (synchronize_boot_time
      { mode := Mode.REAL, synchronized_real_time := 0,
        synchronized_boot_time := 0, device_proc_open := 0,
        read_counter := 0, set_counter := 0, slowed_call_counter := 0,
        random_call_counter := 0, proc_msg := [], proc_msg_ptr := 0 }
      mono_now)
    real_now

/-- Concatenation of the outputs of `n` successive `read()` calls with
buffer size `L` at offset 0 (the offset the VFS passes to this
`read`, which never updates `*offset`). -/
def readAll (L : Nat) : Nat → FakeRtc → List Char
  | 0, _ => []
  | n + 1, s =>
    (fake_rtc_proc_read s L 0).1 ++ readAll L n (fake_rtc_proc_read s L 0).2.2

/-- States reachable from module initialisation through the modelled
entry points.  `proc_release` carries the hypothesis that some session
is open: the VFS invokes `release` exactly once per successful
`open`. -/
inductive Reachable : FakeRtc → Prop where
  | init (real_now mono_now : Int) : Reachable (fake_rtc_init real_now mono_now)
  | read_time {s : FakeRtc} (now b : Int) :
      Reachable s → Reachable (fake_rtc_read_time s now b).2
  | set_time {s : FakeRtc} (tm now : Int) :
      Reachable s → Reachable (fake_rtc_set_time s tm now).2
  | proc_open {s : FakeRtc} :
      Reachable s → Reachable (fake_rtc_proc_open s).2
  | proc_release {s : FakeRtc} :
      Reachable s → s.device_proc_open ≠ 0 →
      Reachable (fake_rtc_proc_release s).2
  | proc_write {s : FakeRtc} (first : Char) (len : Nat) (off : Int) :
      Reachable s → Reachable (fake_rtc_proc_write s first len off).2
  | proc_read {s : FakeRtc} (length : Nat) (off : Int) :
      Reachable s → Reachable (fake_rtc_proc_read s length off).2.2

/-- A message buffer with no NUL character before its end (true of
every `sprintf`-formatted status message). -/
def NoNul (msg : List Char) : Prop := ∀ c ∈ msg, c ≠ Char.ofNat 0

instance (msg : List Char) : Decidable (NoNul msg) :=
  inferInstanceAs (Decidable (∀ c ∈ msg, c ≠ Char.ofNat 0))

/-- A concrete freshly-synchronized state (both references 0, counters
0, closed `/proc` channel) in a given mode, for concrete evaluations. -/
def sampleState (m : Mode) : FakeRtc :=
  { mode := m, synchronized_real_time := 0, synchronized_boot_time := 0,
    device_proc_open := 0, read_counter := 0, set_counter := 0,
    slowed_call_counter := 0, random_call_counter := 0, proc_msg := [],
    proc_msg_ptr := 0 }

/-- A concrete state with a two-character snapshot in the message
buffer, for concrete evaluations of the streaming read. -/
def sampleMsgState : FakeRtc :=
  { sampleState Mode.REAL with proc_msg := ['A', 'B'] }

lemma wrap64_eq_self (x : Int) (h1 : -9223372036854775808 ≤ x)
    (h2 : x < 9223372036854775808) : wrap64 x = x := by
  unfold wrap64
  omega

lemma natAbs_tmod_ten (b : Int) : (Int.tmod b 10).natAbs = b.natAbs % 10 := by
  cases b with
  | ofNat m =>
    have h : Int.tmod (Int.ofNat m) 10 = Int.ofNat (m % 10) := rfl
    rw [h]
    simp
    omega
  | negSucc m =>
    have h : Int.tmod (Int.negSucc m) 10 = -(Int.ofNat ((m + 1) % 10)) := rfl
    rw [h, Int.natAbs_neg]
    simp
    omega

lemma read_time_real (s : FakeRtc) (now b : Int) (h : s.mode = Mode.REAL) :
    fake_rtc_read_time s now b =
      ({ my_time := wrap64 (s.synchronized_real_time +
            (nanosec_from_sync s now : Int)),
         tm_seconds := (wrap64 (s.synchronized_real_time +
            (nanosec_from_sync s now : Int))).tdiv NANOSECONDS_IN_SECOND,
         ret := 0 },
       { s with read_counter := (s.read_counter + 1) % U64_SIZE }) := by
  simp [fake_rtc_read_time, h, get_real_time]

lemma read_time_random (s : FakeRtc) (now b : Int) (h : s.mode = Mode.RANDOM) :
    fake_rtc_read_time s now b =
      ({ my_time := wrap64 (s.synchronized_real_time +
            (nanosec_from_sync s now : Int) * Int.tmod b 10 +
            (((s.random_call_counter + 1) % 2 : Nat) : Int) *
              NANOSECONDS_IN_SECOND),
         tm_seconds := (wrap64 (s.synchronized_real_time +
            (nanosec_from_sync s now : Int) * Int.tmod b 10 +
            (((s.random_call_counter + 1) % 2 : Nat) : Int) *
              NANOSECONDS_IN_SECOND)).tdiv NANOSECONDS_IN_SECOND,
         ret := 0 },
       { s with random_call_counter := s.random_call_counter + 1,
                read_counter := (s.read_counter + 1) % U64_SIZE }) := by
  simp [fake_rtc_read_time, h, get_randomized_time]

lemma read_time_slowed (s : FakeRtc) (now b : Int) (h : s.mode = Mode.SLOWED) :
    fake_rtc_read_time s now b =
      ({ my_time := wrap64 (s.synchronized_real_time +
            ((nanosec_from_sync s now / SLOWING_COEFFICIENT : Nat) : Int) +
            (((s.slowed_call_counter + 1) % 2 : Nat) : Int) *
              NANOSECONDS_IN_SECOND),
         tm_seconds := (wrap64 (s.synchronized_real_time +
            ((nanosec_from_sync s now / SLOWING_COEFFICIENT : Nat) : Int) +
            (((s.slowed_call_counter + 1) % 2 : Nat) : Int) *
              NANOSECONDS_IN_SECOND)).tdiv NANOSECONDS_IN_SECOND,
         ret := 0 },
       { s with slowed_call_counter := s.slowed_call_counter + 1,
                read_counter := (s.read_counter + 1) % U64_SIZE }) := by
  simp [fake_rtc_read_time, h, get_slowed_time]

lemma read_time_device_proc_open (s : FakeRtc) (now b : Int) :
    ((fake_rtc_read_time s now b).2).device_proc_open = s.device_proc_open := by
  cases h : s.mode <;>
    simp [fake_rtc_read_time, h, get_slowed_time, get_randomized_time]

lemma read_time_proc_msg (s : FakeRtc) (now b : Int) :
    ((fake_rtc_read_time s now b).2).proc_msg = s.proc_msg := by
  cases h : s.mode <;>
    simp [fake_rtc_read_time, h, get_slowed_time, get_randomized_time]

lemma read_time_sync_fields (s : FakeRtc) (now b : Int) :
    ((fake_rtc_read_time s now b).2).synchronized_real_time =
        s.synchronized_real_time ∧
      ((fake_rtc_read_time s now b).2).synchronized_boot_time =
        s.synchronized_boot_time ∧
      ((fake_rtc_read_time s now b).2).mode = s.mode := by
  cases h : s.mode <;>
    simp [fake_rtc_read_time, h, get_slowed_time, get_randomized_time]

lemma proc_read_loop_eq (msg : List Char) (hnn : NoNul msg) :
    ∀ (L p : Nat), proc_read_loop msg p L = (msg.drop p).take L := by
  intro L
  induction L with
  | zero => intro p; simp [proc_read_loop]
  | succ L ih =>
    intro p
    by_cases h : p < msg.length
    · have hc : msg.get ⟨p, h⟩ ≠ Char.ofNat 0 := hnn _ (List.get_mem msg p h)
      rw [proc_read_loop, dif_pos h, if_neg hc, ih]
      rw [List.drop_eq_getElem_cons h, List.take_succ_cons]
      simp
    · rw [proc_read_loop, dif_neg h,
        List.drop_eq_nil_of_le (Nat.le_of_not_lt h)]
      simp

lemma proc_read_zero (s : FakeRtc) (L : Nat) (hnn : NoNul s.proc_msg)
    (h1024 : s.proc_msg_ptr ≤ 1024) :
    fake_rtc_proc_read s L 0 =
      ((s.proc_msg.drop s.proc_msg_ptr.toNat).take L,
       (((s.proc_msg.drop s.proc_msg_ptr.toNat).take L).length : Int),
       { s with proc_msg_ptr := s.proc_msg_ptr +
          ((s.proc_msg.drop s.proc_msg_ptr.toNat).take L).length }) := by
  unfold fake_rtc_proc_read
  rw [if_neg (by simp [PROC_MSG_LEN]; omega)]
  simp [proc_read_loop_eq s.proc_msg hnn]

lemma digitChar_ne_nul (n : Nat) : Nat.digitChar n ≠ Char.ofNat 0 := by
  match n with
  | 0 | 1 | 2 | 3 | 4 | 5 | 6 | 7 | 8 | 9 | 10 | 11 | 12 | 13 | 14 | 15 =>
    decide
  | n + 16 =>
    unfold Nat.digitChar
    repeat rw [if_neg (by omega)]
    decide

lemma toDigitsCore_ne_nul :
    ∀ (f n : Nat) (acc : List Char), (∀ c ∈ acc, c ≠ Char.ofNat 0) →
      ∀ c ∈ Nat.toDigitsCore 10 f n acc, c ≠ Char.ofNat 0 := by
  intro f
  induction f with
  | zero =>
    intro n acc hacc c hc
    simp only [Nat.toDigitsCore] at hc
    exact hacc c hc
  | succ f ih =>
    intro n acc hacc c hc
    simp only [Nat.toDigitsCore] at hc
    split at hc
    · rcases List.mem_cons.mp hc with h | h
      · subst h; exact digitChar_ne_nul _
      · exact hacc c h
    · refine ih _ _ ?_ c hc
      intro x hx
      rcases List.mem_cons.mp hx with h | h
      · subst h; exact digitChar_ne_nul _
      · exact hacc x h

lemma repr_ne_nul (n : Nat) : ∀ c ∈ (Nat.repr n).data, c ≠ Char.ofNat 0 := by
  intro c hc
  have h : (Nat.repr n).data = Nat.toDigitsCore 10 (n + 1) n [] := rfl
  rw [h] at hc
  exact toDigitsCore_ne_nul _ _ _ (by simp) c hc

lemma noNul_append {l1 l2 : List Char} (h1 : NoNul l1) (h2 : NoNul l2) :
    NoNul (l1 ++ l2) := by
  intro c hc
  rcases List.mem_append.mp hc with h | h
  exacts [h1 c h, h2 c h]

lemma procMsg_noNul (a b : Nat) (m : Mode) : NoNul (procMsg a b m) := by
  unfold procMsg
  simp only [String.data_append]
  refine noNul_append (noNul_append (noNul_append (noNul_append (noNul_append
    (noNul_append (noNul_append (noNul_append ?_ ?_) ?_) ?_) ?_) ?_) ?_) ?_) ?_
  exacts [by decide, repr_ne_nul a, by decide, repr_ne_nul b, by decide,
    by decide, by decide, repr_ne_nul (mode_number m), by decide]

lemma take_drop_chunk (l : List Char) (p L : Nat) :
    (l.drop p).take L ++ l.drop (p + ((l.drop p).take L).length) = l.drop p := by
  have hk : ((l.drop p).take L).length = min L (l.length - p) := by simp
  by_cases hcase : l.length - p ≤ L
  · have h1 : (l.drop p).take L = l.drop p :=
      List.take_of_length_le (by simp; omega)
    have h2 : l.drop (p + ((l.drop p).take L).length) = [] :=
      List.drop_eq_nil_of_le (by omega)
    rw [h2, h1, List.append_nil]
  · have h2 : l.drop (p + ((l.drop p).take L).length) = (l.drop p).drop L := by
      rw [List.drop_drop]
      congr 1
      omega
    rw [h2, List.take_append_drop]

lemma readAll_eq (L : Nat) :
    ∀ (n : Nat) (s : FakeRtc), NoNul s.proc_msg → s.proc_msg.length ≤ 1024 →
      0 ≤ s.proc_msg_ptr → s.proc_msg_ptr ≤ 1024 →
      s.proc_msg.length ≤ s.proc_msg_ptr.toNat + n * L →
      readAll L n s = s.proc_msg.drop s.proc_msg_ptr.toNat := by
  intro n
  induction n with
  | zero =>
    intro s hnn hlen h0 h1024 hcov
    rw [readAll, List.drop_eq_nil_of_le (by omega)]
  | succ n ih =>
    intro s hnn hlen h0 h1024 hcov
    have hk : ((s.proc_msg.drop s.proc_msg_ptr.toNat).take L).length =
        min L (s.proc_msg.length - s.proc_msg_ptr.toNat) := by
      simp
    have hmul : (n + 1) * L = n * L + L := by ring
    rw [readAll, proc_read_zero s L hnn h1024]
    have hrec := ih { s with proc_msg_ptr := s.proc_msg_ptr +
        (((s.proc_msg.drop s.proc_msg_ptr.toNat).take L).length : Int) }
      (by simpa using hnn) (by simpa using hlen)
      (by simp; omega) (by simp; omega) (by simp; omega)
    simp only at hrec
    have hptr : (s.proc_msg_ptr +
        (((s.proc_msg.drop s.proc_msg_ptr.toNat).take L).length : Int)).toNat =
        s.proc_msg_ptr.toNat +
          ((s.proc_msg.drop s.proc_msg_ptr.toNat).take L).length := by
      omega
    rw [hptr] at hrec
    rw [hrec]
    exact take_drop_chunk s.proc_msg s.proc_msg_ptr.toNat L

lemma proc_read_device_proc_open (s : FakeRtc) (length : Nat) (off : Int) :
    ((fake_rtc_proc_read s length off).2.2).device_proc_open =
      s.device_proc_open := by
  unfold fake_rtc_proc_read
  by_cases h : (s.proc_msg_ptr + off) > (PROC_MSG_LEN : Int)
  · simp [h]
  · simp [h]

lemma reachable_device_open (s : FakeRtc) (h : Reachable s) :
    0 ≤ s.device_proc_open ∧ s.device_proc_open ≤ 1 := by
  induction h with
  | init r m =>
    simp [fake_rtc_init, synchronize_boot_time, synchronize_real_time]
  | read_time now b hs ih =>
    rw [read_time_device_proc_open]; exact ih
  | set_time tm now hs ih =>
    simpa [fake_rtc_set_time, synchronize_boot_time] using ih
  | proc_open hs ih =>
    unfold fake_rtc_proc_open
    split
    · exact ih
    · rename_i hguard
      simp only [ne_eq, not_not] at hguard
      simp [hguard]
  | proc_release hs hne ih =>
    simp only [fake_rtc_proc_release]
    constructor <;> omega
  | proc_write first len off hs ih =>
    unfold fake_rtc_proc_write
    split
    · exact ih
    · split
      · exact ih
      · simpa using ih
  | proc_read length off hs ih =>
    rw [proc_read_device_proc_open]
    exact ih

/-- Claim C1 counterexample: on the very first RANDOM-mode read from a
freshly synchronized state (elapsed 0, random byte 0) the returned
apparent timestamp is not `syncedRealTime + elapsed * C`: the odd-call
parity term contributes an extra whole second. -/
theorem claim_C1_counterexample :
    (fake_rtc_read_time (sampleState Mode.RANDOM) 0 0).1.my_time ≠
      (sampleState Mode.RANDOM).synchronized_real_time +
        (nanosec_from_sync (sampleState Mode.RANDOM) 0 : Int) *
          Int.tmod 0 10 := by
  decide

/-- Claim C1, amended: a RANDOM-mode read returns `syncedRealTime +
elapsed * C + parity * 1s`, where `C` is the random byte reduced by the
C truncated remainder modulo 10 and `parity` toggles 0/1 per RANDOM
read (1 on the first call); the hypotheses keep the exact sum inside
the s64 range so the 64-bit arithmetic does not wrap. -/
theorem claim_C1_random_projection (s : FakeRtc) (now b : Int)
    (hm : s.mode = Mode.RANDOM)
    (hlo : -9223372036854775808 ≤ s.synchronized_real_time +
      (nanosec_from_sync s now : Int) * Int.tmod b 10 +
      (((s.random_call_counter + 1) % 2 : Nat) : Int) * NANOSECONDS_IN_SECOND)
    (hhi : s.synchronized_real_time +
      (nanosec_from_sync s now : Int) * Int.tmod b 10 +
      (((s.random_call_counter + 1) % 2 : Nat) : Int) * NANOSECONDS_IN_SECOND <
      9223372036854775808) :
    (fake_rtc_read_time s now b).1.my_time =
      s.synchronized_real_time +
        (nanosec_from_sync s now : Int) * Int.tmod b 10 +
        (((s.random_call_counter + 1) % 2 : Nat) : Int) *
          NANOSECONDS_IN_SECOND := by
  rw [read_time_random s now b hm]
  exact wrap64_eq_self _ hlo hhi

/-- Concrete instantiation of the amended C1 theorem. -/
theorem claim_C1_witness :
    (fake_rtc_read_time (sampleState Mode.RANDOM) 1000 7).1.my_time =
      (sampleState Mode.RANDOM).synchronized_real_time +
        (nanosec_from_sync (sampleState Mode.RANDOM) 1000 : Int) *
          Int.tmod 7 10 +
        ((((sampleState Mode.RANDOM).random_call_counter + 1) % 2 : Nat) : Int) *
          NANOSECONDS_IN_SECOND :=
  claim_C1_random_projection (sampleState Mode.RANDOM) 1000 7 rfl
    (by decide) (by decide)

/-- Claim C2 counterexample: on the first RANDOM-mode read with elapsed
0, the apparent delta has magnitude one whole second, exceeding the
claimed bound `9 * elapsed = 0`. -/
theorem claim_C2_counterexample :
    ¬ ((fake_rtc_read_time (sampleState Mode.RANDOM) 0 0).1.my_time -
        (sampleState Mode.RANDOM).synchronized_real_time).natAbs ≤
      9 * nanosec_from_sync (sampleState Mode.RANDOM) 0 := by
  decide

/-- Claim C2, amended: in RANDOM mode, for every draw, the apparent
delta minus the parity whole-second term is at most `9 * elapsed` in
absolute value (hypotheses keep the 64-bit arithmetic wrap-free). -/
theorem claim_C2_random_bound (s : FakeRtc) (now b : Int)
    (hm : s.mode = Mode.RANDOM)
    (hlo : -9223372036854775808 ≤ s.synchronized_real_time +
      (nanosec_from_sync s now : Int) * Int.tmod b 10 +
      (((s.random_call_counter + 1) % 2 : Nat) : Int) * NANOSECONDS_IN_SECOND)
    (hhi : s.synchronized_real_time +
      (nanosec_from_sync s now : Int) * Int.tmod b 10 +
      (((s.random_call_counter + 1) % 2 : Nat) : Int) * NANOSECONDS_IN_SECOND <
      9223372036854775808) :
    ((fake_rtc_read_time s now b).1.my_time - s.synchronized_real_time -
        (((s.random_call_counter + 1) % 2 : Nat) : Int) *
          NANOSECONDS_IN_SECOND).natAbs ≤
      9 * nanosec_from_sync s now := by
  simp only [read_time_random s now b hm]
  rw [wrap64_eq_self _ hlo hhi]
  have heq : s.synchronized_real_time +
      (nanosec_from_sync s now : Int) * Int.tmod b 10 +
      (((s.random_call_counter + 1) % 2 : Nat) : Int) * NANOSECONDS_IN_SECOND -
      s.synchronized_real_time -
      (((s.random_call_counter + 1) % 2 : Nat) : Int) * NANOSECONDS_IN_SECOND =
      (nanosec_from_sync s now : Int) * Int.tmod b 10 := by
    ring
  rw [heq, Int.natAbs_mul, Int.natAbs_ofNat]
  have h9 : (Int.tmod b 10).natAbs ≤ 9 := by
    rw [natAbs_tmod_ten]
    omega
  calc nanosec_from_sync s now * (Int.tmod b 10).natAbs ≤
      nanosec_from_sync s now * 9 :=
        Nat.mul_le_mul_left (nanosec_from_sync s now) h9
    _ = 9 * nanosec_from_sync s now := Nat.mul_comm _ 9

/-- Concrete instantiation of the amended C2 theorem. -/
theorem claim_C2_witness :
    ((fake_rtc_read_time (sampleState Mode.RANDOM) 1000 7).1.my_time -
        (sampleState Mode.RANDOM).synchronized_real_time -
        ((((sampleState Mode.RANDOM).random_call_counter + 1) % 2 : Nat) : Int) *
          NANOSECONDS_IN_SECOND).natAbs ≤
      9 * nanosec_from_sync (sampleState Mode.RANDOM) 1000 :=
  claim_C2_random_bound (sampleState Mode.RANDOM) 1000 7 rfl
    (by decide) (by decide)

/-- Claim C8 counterexample: a concrete RANDOM-mode read returns status
0 (success) together with a timestamp built from whatever byte the
random source produced — there is no failing return, contradicting the
claim that an unavailable random source makes the read fail. -/
theorem claim_C8_counterexample :
    (fake_rtc_read_time (sampleState Mode.RANDOM) 5 3).1.ret = 0 ∧
      (fake_rtc_read_time (sampleState Mode.RANDOM) 5 3).1.my_time =
        5 * Int.tmod 3 10 + 1000000000 := by
  decide

/-- Claim C8, amended: `fake_rtc_read_time` has no failure path at all:
it returns status 0 in every mode on every input.  The kernel's
`get_random_bytes` returns `void` and cannot report unavailability, so
no `RandomSourceUnavailable` condition can surface. -/
theorem claim_C8_read_never_fails (s : FakeRtc) (now b : Int) :
    (fake_rtc_read_time s now b).1.ret = 0 := by
  cases h : s.mode <;>
    simp [fake_rtc_read_time, h, get_slowed_time, get_randomized_time]

/-- Claim C10, confirmed: in every mode the value handed to
`rtc_time64_to_tm` (the caller-visible seconds) is the internally
computed nanosecond apparent time divided by 10^9 (C s64 division), so
callers never observe sub-second information. -/
theorem claim_C10_truncation (s : FakeRtc) (now b : Int) :
    (fake_rtc_read_time s now b).1.tm_seconds =
      ((fake_rtc_read_time s now b).1.my_time).tdiv NANOSECONDS_IN_SECOND := by
  cases h : s.mode <;>
    simp [fake_rtc_read_time, h, get_slowed_time, get_randomized_time]

/-- Claim C4, confirmed: setting the clock to `T` seconds and reading
it back with no elapsed monotonic time in REAL mode returns `T`: the
stored reference becomes `T` seconds in nanoseconds and the whole-second
output is exactly `T` (hypotheses keep `T` in the range `ktime_set`
accepts without saturating). -/
theorem claim_C4_set_then_read (s : FakeRtc) (T now b : Int)
    (hT0 : 0 ≤ T) (hTmax : T < KTIME_SEC_MAX) (hm : s.mode = Mode.REAL) :
    (fake_rtc_read_time (fake_rtc_set_time s T now).2 now b).1.tm_seconds = T ∧
      (fake_rtc_read_time (fake_rtc_set_time s T now).2 now b).1.my_time =
        T * NANOSECONDS_IN_SECOND := by
  have hsec : KTIME_SEC_MAX = 9223372036 := by decide
  rw [hsec] at hTmax
  have hm2 : ((fake_rtc_set_time s T now).2).mode = Mode.REAL := hm
  rw [read_time_real _ now b hm2]
  have hnd : nanosec_from_sync (fake_rtc_set_time s T now).2 now = 0 := by
    simp [nanosec_from_sync, fake_rtc_set_time, synchronize_boot_time]
  have hks : ktime_set_sec T = T * NANOSECONDS_IN_SECOND := by
    unfold ktime_set_sec
    rw [if_neg (by rw [hsec]; omega)]
    apply wrap64_eq_self
    · have h1 : (0 : Int) ≤ T * NANOSECONDS_IN_SECOND :=
        mul_nonneg hT0 (by norm_num [NANOSECONDS_IN_SECOND])
      omega
    · calc T * NANOSECONDS_IN_SECOND ≤ 9223372035 * NANOSECONDS_IN_SECOND :=
          mul_le_mul_of_nonneg_right (by omega)
            (by norm_num [NANOSECONDS_IN_SECOND])
        _ < 9223372036854775808 := by norm_num [NANOSECONDS_IN_SECOND]
  have hreal : ((fake_rtc_set_time s T now).2).synchronized_real_time =
      T * NANOSECONDS_IN_SECOND := by
    simp [fake_rtc_set_time, synchronize_boot_time, hks]
  rw [hnd, hreal]
  simp only [Nat.cast_zero, add_zero]
  have hb1 : (0 : Int) ≤ T * NANOSECONDS_IN_SECOND :=
    mul_nonneg hT0 (by norm_num [NANOSECONDS_IN_SECOND])
  have hb2 : T * NANOSECONDS_IN_SECOND < 9223372036854775808 := by
    calc T * NANOSECONDS_IN_SECOND ≤ 9223372035 * NANOSECONDS_IN_SECOND :=
        mul_le_mul_of_nonneg_right (by omega)
          (by norm_num [NANOSECONDS_IN_SECOND])
      _ < 9223372036854775808 := by norm_num [NANOSECONDS_IN_SECOND]
  rw [wrap64_eq_self _ (by omega) hb2]
  refine ⟨?_, rfl⟩
  exact Int.mul_tdiv_cancel T (by norm_num [NANOSECONDS_IN_SECOND])

/-- Concrete instantiation of the C4 theorem. -/
theorem claim_C4_witness :
    (fake_rtc_read_time
        (fake_rtc_set_time (sampleState Mode.REAL) 5 100).2 100 0).1.tm_seconds =
        5 ∧
      (fake_rtc_read_time
        (fake_rtc_set_time (sampleState Mode.REAL) 5 100).2 100 0).1.my_time =
        5 * NANOSECONDS_IN_SECOND :=
  claim_C4_set_then_read (sampleState Mode.REAL) 5 100 0 (by decide)
    (by decide) rfl

lemma slowed_tm_seconds (R : Int) (q p : Nat) (hR : 0 ≤ R) (hp : p ≤ 1)
    (hhi : R + (q : Int) + 1000000000 < 9223372036854775808) :
    (wrap64 (R + (q : Int) + ((p : Nat) : Int) * 1000000000)).tdiv 1000000000 =
      (R + (q : Int)) / 1000000000 + (p : Int) := by
  rw [wrap64_eq_self _ (by omega) (by omega)]
  rw [Int.tdiv_eq_ediv (by omega) (by omega)]
  rw [Int.add_mul_ediv_right _ _ (by norm_num)]

/-- Claim C3 counterexample: the whole-second components of two
consecutive SLOWED reads do not always differ.  From a fresh SLOWED
state, reads at elapsed 0 and 5·10^9 ns both report second 1: the
parity term swings 1 → 0 while the slowed base advances by exactly one
second, and the two movements cancel. -/
theorem claim_C3_counterexample :
    (fake_rtc_read_time (sampleState Mode.SLOWED) 0 0).1.tm_seconds = 1 ∧
      (fake_rtc_read_time (fake_rtc_read_time (sampleState Mode.SLOWED) 0 0).2
        5000000000 0).1.tm_seconds = 1 ∧
      ¬ 1 ≤ ((fake_rtc_read_time (sampleState Mode.SLOWED) 0 0).1.tm_seconds -
        (fake_rtc_read_time (fake_rtc_read_time (sampleState Mode.SLOWED) 0 0).2
          5000000000 0).1.tm_seconds).natAbs := by
  refine ⟨by decide, by decide, by decide⟩

/-- Claim C3, amended: two consecutive SLOWED reads whose slowed
offsets `syncedRealTime + elapsed/S` land in the same whole second
report whole-second values that differ by at least 1, because the
parity term adds an extra second on exactly one of the two calls
(hypotheses keep the state nonnegative and the 64-bit sums wrap-free).
Without the same-second restriction the property fails: the parity
swing can cancel a one-second advance of the slowed base offset. -/
theorem claim_C3_slowed_parity (s : FakeRtc) (now1 now2 b1 b2 : Int)
    (hm : s.mode = Mode.SLOWED)
    (hR : 0 ≤ s.synchronized_real_time)
    (hhi1 : s.synchronized_real_time +
      ((nanosec_from_sync s now1 / SLOWING_COEFFICIENT : Nat) : Int) +
      NANOSECONDS_IN_SECOND < 9223372036854775808)
    (hhi2 : s.synchronized_real_time +
      ((nanosec_from_sync s now2 / SLOWING_COEFFICIENT : Nat) : Int) +
      NANOSECONDS_IN_SECOND < 9223372036854775808)
    (hsame : (s.synchronized_real_time +
        ((nanosec_from_sync s now1 / SLOWING_COEFFICIENT : Nat) : Int)) /
          NANOSECONDS_IN_SECOND =
      (s.synchronized_real_time +
        ((nanosec_from_sync s now2 / SLOWING_COEFFICIENT : Nat) : Int)) /
          NANOSECONDS_IN_SECOND) :
    1 ≤ ((fake_rtc_read_time s now1 b1).1.tm_seconds -
      (fake_rtc_read_time (fake_rtc_read_time s now1 b1).2 now2 b2).1.tm_seconds).natAbs := by
  have h1 := read_time_slowed s now1 b1 hm
  have hm2 : ((fake_rtc_read_time s now1 b1).2).mode = Mode.SLOWED := by
    rw [h1]; exact hm
  have hreal2 : ((fake_rtc_read_time s now1 b1).2).synchronized_real_time =
      s.synchronized_real_time := (read_time_sync_fields s now1 b1).1
  have hnd2 : nanosec_from_sync ((fake_rtc_read_time s now1 b1).2) now2 =
      nanosec_from_sync s now2 := by
    unfold nanosec_from_sync
    rw [(read_time_sync_fields s now1 b1).2.1]
  have hslow2 : ((fake_rtc_read_time s now1 b1).2).slowed_call_counter =
      s.slowed_call_counter + 1 := by
    rw [h1]
  have h2 := read_time_slowed ((fake_rtc_read_time s now1 b1).2) now2 b2 hm2
  rw [hreal2, hnd2, hslow2] at h2
  rw [h2, h1]
  simp only
  simp only [NANOSECONDS_IN_SECOND, SLOWING_COEFFICIENT] at hhi1 hhi2 hsame ⊢
  rw [slowed_tm_seconds _ _ _ hR (by omega) hhi1]
  rw [slowed_tm_seconds _ _ _ hR (by omega) hhi2]
  omega

/-- Concrete instantiation of the C3 theorem: reads at elapsed 0 and 3
ticks from a zeroed SLOWED state report seconds 1 and 0. -/
theorem claim_C3_witness :
    1 ≤ ((fake_rtc_read_time (sampleState Mode.SLOWED) 0 0).1.tm_seconds -
      (fake_rtc_read_time
        (fake_rtc_read_time (sampleState Mode.SLOWED) 0 0).2 3 0).1.tm_seconds).natAbs :=
  claim_C3_slowed_parity (sampleState Mode.SLOWED) 0 3 0 0 rfl (by decide)
    (by decide) (by decide) (by decide)

/-- Claim C7, confirmed: a control write whose first byte is not an
ASCII digit in `0..3`, or whose offset is nonzero, or whose length is
zero, changes nothing (the whole state is returned untouched) and still
reports the full input length as consumed.  Offsets are nonnegative
(the VFS never passes a negative file position). -/
theorem claim_C7_invalid_write_noop (s : FakeRtc) (first : Char) (len : Nat)
    (off : Int) (hoff : 0 ≤ off)
    (h : len = 0 ∨ off ≠ 0 ∨ first < '0' ∨ '3' < first) :
    fake_rtc_proc_write s first len off = (len, s) := by
  unfold fake_rtc_proc_write
  rcases h with h | h | h | h
  · rw [if_pos (Or.inl h)]
  · rw [if_pos (Or.inr (by omega))]
  · by_cases hl : len = 0 ∨ 0 < off
    · rw [if_pos hl]
    · rw [if_neg hl, if_pos (Or.inl h)]
  · by_cases hl : len = 0 ∨ 0 < off
    · rw [if_pos hl]
    · rw [if_neg hl, if_pos (Or.inr h)]

/-- Concrete instantiation of the C7 theorem. -/
theorem claim_C7_witness :
    fake_rtc_proc_write (sampleState Mode.REAL) 'z' 1 0 =
      (1, sampleState Mode.REAL) :=
  claim_C7_invalid_write_noop (sampleState Mode.REAL) 'z' 1 0 (by decide)
    (by decide)

/-- Claim C6, confirmed: opening the control channel while a session is
open fails with `-EBUSY` and changes nothing; after a release the next
open succeeds; and over every reachable execution the open guard never
exceeds 1, so at most one session is open system-wide. -/
theorem claim_C6_exclusive_session :
    (∀ s : FakeRtc, s.device_proc_open ≠ 0 →
        fake_rtc_proc_open s = (-16, s)) ∧
      (∀ s : FakeRtc, s.device_proc_open = 1 →
        (fake_rtc_proc_open (fake_rtc_proc_release s).2).1 = 0) ∧
      (∀ s : FakeRtc, Reachable s → s.device_proc_open ≤ 1) := by
  refine ⟨?_, ?_, ?_⟩
  · intro s h
    unfold fake_rtc_proc_open
    rw [if_pos h]
  · intro s h
    unfold fake_rtc_proc_open fake_rtc_proc_release
    simp [h]
  · intro s h
    exact (reachable_device_open s h).2

/-- Concrete instantiation of the C6 theorem. -/
theorem claim_C6_witness :
    fake_rtc_proc_open { sampleState Mode.REAL with device_proc_open := 1 } =
        (-16, { sampleState Mode.REAL with device_proc_open := 1 }) ∧
      (fake_rtc_proc_open
        (fake_rtc_proc_release
          { sampleState Mode.REAL with device_proc_open := 1 }).2).1 = 0 ∧
      (fake_rtc_init 0 0).device_proc_open ≤ 1 :=
  ⟨claim_C6_exclusive_session.1 _ (by decide),
   claim_C6_exclusive_session.2.1 _ rfl,
   claim_C6_exclusive_session.2.2 _ (Reachable.init 0 0)⟩

lemma open_then_read (s : FakeRtc) (hopen : s.device_proc_open = 0) :
    (fake_rtc_proc_read (fake_rtc_proc_open s).2
        (procMsg s.set_counter s.read_counter s.mode).length 0).1 =
      procMsg s.set_counter s.read_counter s.mode := by
  have hfo : (fake_rtc_proc_open s).2 =
      { s with device_proc_open := s.device_proc_open + 1,
               proc_msg := procMsg s.set_counter s.read_counter s.mode,
               proc_msg_ptr := 0 } := by
    unfold fake_rtc_proc_open
    rw [if_neg (by simp [hopen])]
  rw [hfo]
  rw [proc_read_zero _ _
    (procMsg_noNul s.set_counter s.read_counter s.mode) (by norm_num)]
  simp

lemma write_digit_sets_mode (s : FakeRtc) (d : Char) (len : Nat)
    (hlen : len ≠ 0) (hdlo : ¬ d < '0') (hdhi : ¬ '3' < d) :
    (fake_rtc_proc_write s d len 0).2 =
      { s with mode := mode_of_nat (d.toNat - 48) } := by
  unfold fake_rtc_proc_write
  rw [if_neg (by simp [hlen]), if_neg (by simp [hdlo, hdhi])]

/-- Claim C5, confirmed: writing a digit `d` in `0..3` (nonempty write
at offset zero) sets the mode to the corresponding enum variant, a
subsequent open-and-read of the control channel returns the status
snapshot whose mode field renders exactly the digit `d`, and writing
any first byte outside `0..3` leaves the mode unchanged. -/
theorem claim_C5_mode_roundtrip :
    (∀ (s : FakeRtc) (d : Char) (len : Nat),
        d ∈ (['0', '1', '2', '3'] : List Char) → len ≠ 0 →
        s.device_proc_open = 0 →
        ((fake_rtc_proc_write s d len 0).2).mode =
            mode_of_nat (d.toNat - 48) ∧
          mode_number ((fake_rtc_proc_write s d len 0).2).mode =
            d.toNat - 48 ∧
          (fake_rtc_proc_read
              (fake_rtc_proc_open (fake_rtc_proc_write s d len 0).2).2
              (procMsg s.set_counter s.read_counter
                ((fake_rtc_proc_write s d len 0).2).mode).length 0).1 =
            procMsg s.set_counter s.read_counter
              ((fake_rtc_proc_write s d len 0).2).mode ∧
          Nat.repr (mode_number ((fake_rtc_proc_write s d len 0).2).mode) =
            String.mk [d]) ∧
      (∀ (s : FakeRtc) (c : Char) (len : Nat) (off : Int),
        c < '0' ∨ '3' < c →
        ((fake_rtc_proc_write s c len off).2).mode = s.mode) := by
  constructor
  · intro s d len hd hlen hopen
    have hdlo : ¬ d < '0' := by fin_cases hd <;> decide
    have hdhi : ¬ '3' < d := by fin_cases hd <;> decide
    rw [write_digit_sets_mode s d len hlen hdlo hdhi]
    refine ⟨rfl, ?_, open_then_read _ hopen, ?_⟩
    · fin_cases hd <;> rfl
    · fin_cases hd
      · exact (by decide :
          Nat.repr (mode_number (mode_of_nat ('0'.toNat - 48))) =
            String.mk ['0'])
      · exact (by decide :
          Nat.repr (mode_number (mode_of_nat ('1'.toNat - 48))) =
            String.mk ['1'])
      · exact (by decide :
          Nat.repr (mode_number (mode_of_nat ('2'.toNat - 48))) =
            String.mk ['2'])
      · exact (by decide :
          Nat.repr (mode_number (mode_of_nat ('3'.toNat - 48))) =
            String.mk ['3'])
  · intro s c len off hc
    unfold fake_rtc_proc_write
    by_cases h0 : len = 0 ∨ 0 < off
    · rw [if_pos h0]
    · rw [if_neg h0, if_pos hc]

/-- Concrete instantiation of the C5 theorem with digit 2 and an
out-of-range byte. -/
theorem claim_C5_witness :
    (((fake_rtc_proc_write (sampleState Mode.REAL) '2' 1 0).2).mode =
          mode_of_nat ('2'.toNat - 48) ∧
        mode_number ((fake_rtc_proc_write (sampleState Mode.REAL) '2' 1 0).2).mode =
          '2'.toNat - 48 ∧
        (fake_rtc_proc_read
            (fake_rtc_proc_open
              (fake_rtc_proc_write (sampleState Mode.REAL) '2' 1 0).2).2
            (procMsg (sampleState Mode.REAL).set_counter
              (sampleState Mode.REAL).read_counter
              ((fake_rtc_proc_write (sampleState Mode.REAL) '2' 1 0).2).mode).length
            0).1 =
          procMsg (sampleState Mode.REAL).set_counter
            (sampleState Mode.REAL).read_counter
            ((fake_rtc_proc_write (sampleState Mode.REAL) '2' 1 0).2).mode ∧
        Nat.repr
            (mode_number
              ((fake_rtc_proc_write (sampleState Mode.REAL) '2' 1 0).2).mode) =
          String.mk ['2']) ∧
      ((fake_rtc_proc_write (sampleState Mode.REAL) 'x' 1 0).2).mode =
        (sampleState Mode.REAL).mode :=
  ⟨claim_C5_mode_roundtrip.1 (sampleState Mode.REAL) '2' 1 (by decide)
      (by decide) rfl,
   claim_C5_mode_roundtrip.2 (sampleState Mode.REAL) 'x' 1 0 (by decide)⟩

/-- Claim C9, confirmed: each `read()` at the offset the VFS supplies
(0, since this `read` never updates `*offset`) returns the next
in-order chunk of the snapshot of at most the buffer size, advancing
the global cursor by the chunk length; repeating reads until the
counted coverage reaches the snapshot length returns exactly the whole
snapshot captured at `open()`; once the cursor has passed the end of
the snapshot a read returns zero bytes; and neither `read_time` nor
`set_time` touches the snapshot, so it never reflects counter changes
after `open()`. -/
theorem claim_C9_snapshot_streaming :
    (∀ (s : FakeRtc) (L : Nat), NoNul s.proc_msg → s.proc_msg_ptr ≤ 1024 →
        (fake_rtc_proc_read s L 0).1 =
            (s.proc_msg.drop s.proc_msg_ptr.toNat).take L ∧
          ((fake_rtc_proc_read s L 0).2.2).proc_msg_ptr =
            s.proc_msg_ptr +
              (((s.proc_msg.drop s.proc_msg_ptr.toNat).take L).length : Int)) ∧
      (∀ (s : FakeRtc) (L n : Nat), NoNul s.proc_msg →
        s.proc_msg.length ≤ 1024 → s.proc_msg_ptr = 0 →
        s.proc_msg.length ≤ n * L →
        readAll L n s = s.proc_msg) ∧
      (∀ (s : FakeRtc) (L : Nat), NoNul s.proc_msg →
        (s.proc_msg.length : Int) ≤ s.proc_msg_ptr → s.proc_msg_ptr ≤ 1024 →
        (fake_rtc_proc_read s L 0).1 = []) ∧
      (∀ (s : FakeRtc) (now b : Int),
        ((fake_rtc_read_time s now b).2).proc_msg = s.proc_msg) ∧
      (∀ (s : FakeRtc) (tm now : Int),
        ((fake_rtc_set_time s tm now).2).proc_msg = s.proc_msg) := by
  refine ⟨?_, ?_, ?_, ?_, ?_⟩
  · intro s L hnn h1024
    rw [proc_read_zero s L hnn h1024]
    exact ⟨rfl, rfl⟩
  · intro s L n hnn hlen hptr hcov
    have h := readAll_eq L n s hnn hlen (by rw [hptr]) (by rw [hptr]; norm_num)
      (by rw [hptr]; simpa using hcov)
    rw [h, hptr]
    simp
  · intro s L hnn hlen h1024
    rw [proc_read_zero s L hnn h1024]
    rw [List.drop_eq_nil_of_le (by omega)]
    simp
  · intro s now b
    exact read_time_proc_msg s now b
  · intro s tm now
    rfl

/-- Concrete instantiation of the C9 theorem: a two-byte snapshot is
streamed out by one-byte reads, a read past the end returns nothing,
and clock reads and sets leave the snapshot alone. -/
theorem claim_C9_witness :
    ((fake_rtc_proc_read sampleMsgState 1 0).1 =
          (sampleMsgState.proc_msg.drop sampleMsgState.proc_msg_ptr.toNat).take 1 ∧
        ((fake_rtc_proc_read sampleMsgState 1 0).2.2).proc_msg_ptr =
          sampleMsgState.proc_msg_ptr +
            (((sampleMsgState.proc_msg.drop
                sampleMsgState.proc_msg_ptr.toNat).take 1).length : Int)) ∧
      readAll 1 2 sampleMsgState = sampleMsgState.proc_msg ∧
      (fake_rtc_proc_read { sampleMsgState with proc_msg_ptr := 2 } 5 0).1 = [] ∧
      ((fake_rtc_read_time sampleMsgState 7 3).2).proc_msg =
        sampleMsgState.proc_msg ∧
      ((fake_rtc_set_time sampleMsgState 7 3).2).proc_msg =
        sampleMsgState.proc_msg :=
  ⟨claim_C9_snapshot_streaming.1 sampleMsgState 1 (by decide) (by decide),
   claim_C9_snapshot_streaming.2.1 sampleMsgState 1 2 (by decide) (by decide)
     rfl (by decide),
   claim_C9_snapshot_streaming.2.2.1 { sampleMsgState with proc_msg_ptr := 2 }
     5 (by decide) (by decide) (by decide),
   claim_C9_snapshot_streaming.2.2.2.1 sampleMsgState 7 3,
   claim_C9_snapshot_streaming.2.2.2.2 sampleMsgState 7 3⟩

end FakeRTC
